import Mathlib

/-!
Verification of the camera_node repository core: the packed 10-bit
unpacking and demosaic pipeline (process_raw_data in
src/testing/get_images-fast.py), the chunked-transfer buffer handling
(on_image_chunk in src/client/get_images-fast.py and the receive loop of
capture_from_node in src/backend/camera_client.py), the capture
coordinator (capture_all in src/backend/camera_client.py), and the
capture-request validation (handle_capture in src/camera_node.py).

Bytes are modelled as natural numbers below 256. The source operates on
numpy arrays of dtype uint8 and uint16; that machine arithmetic is
modelled with explicit reductions modulo 2^8 and 2^16 exactly where the
source dtypes impose them.
-/

/-- One 5-byte group of the 10-bit unpacker in process_raw_data
(src/testing/get_images-fast.py lines 165-168). The source computes, for
group bytes b0..b4 taken from the uint8 array reshaped_data,

  s0 = ((b0 << 2) | (b1 >> 6)) & 0x3FF
  s1 = ((b1 << 4) | (b2 >> 4)) & 0x3FF
  s2 = ((b2 << 6) | (b3 >> 2)) & 0x3FF
  s3 = ((b3 << 8) |  b4      ) & 0x3FF

where the shift operands have dtype uint8, so numpy evaluates each left
shift in uint8 and the shifted value wraps modulo 256 before the bitwise
or (the right shifts and the or stay below 256); the mask with the Python
int 0x3FF promotes the result dtype and changes no value. The modulo 256
reductions below are therefore the semantics of the source lines, not a
simplification. -/
def unpackGroup (b0 b1 b2 b3 b4 : Nat) : Nat × Nat × Nat × Nat :=
  (((b0 <<< 2) % 256 ||| b1 >>> 6) &&& 0x3FF,
   ((b1 <<< 4) % 256 ||| b2 >>> 4) &&& 0x3FF,
   ((b2 <<< 6) % 256 ||| b3 >>> 2) &&& 0x3FF,
   ((b3 <<< 8) % 256 ||| b4) &&& 0x3FF)

/-- The whole-buffer unpacker of process_raw_data
(src/testing/get_images-fast.py lines 160-168): the buffer is reshaped to
one row of 5 bytes per group and the four strided assignments
unpacked_data[j::4] store the four samples of group k at indices
4k..4k+3, i.e. the output is the concatenation of the per-group samples
in group order. A trailing fragment of fewer than 5 bytes cannot reach
this code (the reshape would have failed). -/
def unpackData : List Nat → List Nat
  | b0 :: b1 :: b2 :: b3 :: b4 :: rest =>
    match unpackGroup b0 b1 b2 b3 b4 with
    | (s0, s1, s2, s3) => s0 :: s1 :: s2 :: s3 :: unpackData rest
  | _ => []

/-- C1: on the group (64, 0, 0, 0, 0) the unpacker of the program returns
s0 = 0, while the claimed formula (b0 shifted left by 2, or b1 shifted
right by 6, masked to 10 bits) gives s0 = 256: the uint8 dtype of the
shift operands makes the left shifts wrap modulo 256, so the program does
not compute the claimed bit layout and no sample can exceed 255. -/
theorem unpackGroup_diverges_from_claimed_layout :
    unpackGroup 64 0 0 0 0 = (0, 0, 0, 0) ∧
      ((64 <<< 2 ||| 0 >>> 6) &&& 0x3FF) = 256 := by
  decide

/-- C2: the unpacker of the program collides on the distinct groups
(64, 0, 0, 0, 0) and (0, 0, 0, 0, 0): both unpack to (0, 0, 0, 0). The
unpack step is therefore not injective, so no re-packing can reproduce
both originals and the round-trip law fails on the code as written. -/
theorem unpackGroup_not_injective :
    unpackGroup 64 0 0 0 0 = unpackGroup 0 0 0 0 0 ∧ (64 : Nat) ≠ 0 := by
  decide

/-- Errors of the reconstruction pipeline and of the capture request
handler. sizeMismatch is the explicit raise of process_raw_data
(src/testing/get_images-fast.py lines 156-158); reshapeError is the
numpy error of the group reshape at line 161 when the element count is
not a multiple of 5 rows; unsupportedPattern is the raise at line 204;
broadcastError is the numpy error raised by an assignment or an addition
of arrays with incompatible shapes. -/
inductive PErr where
  | sizeMismatch
  | reshapeError
  | unsupportedPattern
  | broadcastError
deriving DecidableEq

/-- The expected packed byte count of process_raw_data line 154:
expected_size = (camera_width * camera_height * 5) // 4, with Python
floor division. -/
def expectedSize (cameraWidth cameraHeight : Nat) : Nat :=
  cameraWidth * cameraHeight * 5 / 4

/-- Row-major reshape of a flat sample vector into rows x cols, the
numpy reshape of process_raw_data line 171; the pipeline only calls it
when the vector has exactly rows * cols entries. -/
def reshape2d (v : List Nat) (rows cols : Nat) : List (List Nat) :=
  (List.range rows).map fun i => (List.range cols).map fun j => v.getD (i * cols + j) 0

/-- The top-left crop raw_image[:height, :width] of process_raw_data
line 174: numpy basic slicing clamps each axis at the array bound, so
the result has min height rows and min width columns and is never
padded. -/
def cropTL (img : List (List Nat)) (height width : Nat) : List (List Nat) :=
  (img.take height).map fun row => row.take width

/-- Every second element of a list starting at its head: the numpy
stride l[0::2]. -/
def everyOther {α : Type} : List α → List α
  | [] => []
  | [a] => [a]
  | a :: _ :: rest => a :: everyOther rest

/-- The strided subgrid m[r0::2, c0::2] used by the demosaic branches of
process_raw_data lines 181-201. -/
def subGrid (m : List (List Nat)) (r0 c0 : Nat) : List (List Nat) :=
  (everyOther (m.drop r0)).map fun row => everyOther (row.drop c0)

/-- Broadcast index: a length-1 axis repeats its only entry. -/
def bIdx (size i : Nat) : Nat := if size = 1 then 0 else i

/-- The assignment rgb_image[:, :, c] = src of a full (height, width)
channel plane from a source array, with the numpy broadcast rule for
equal-rank shapes: each source axis must match the destination axis or
have extent 1, otherwise numpy raises a broadcast error. Shapes are read
off the list nesting; all grids in the pipeline are rectangular. -/
def assignPlane (height width : Nat) (src : List (List Nat)) : Except PErr (List (List Nat)) :=
  if (src.length = height ∨ src.length = 1) ∧
      ((src.headD []).length = width ∨ (src.headD []).length = 1) then
    .ok ((List.range height).map fun i =>
      (List.range width).map fun j =>
        (src.getD (bIdx src.length i) []).getD (bIdx (src.headD []).length j) 0)
  else .error .broadcastError

/-- Elementwise binary operation of two 2-D numpy arrays under the
broadcast rule: axes must agree or one of them must have extent 1. -/
def broadcastWith (f : Nat → Nat → Nat) (x y : List (List Nat)) : Except PErr (List (List Nat)) :=
  if (x.length = y.length ∨ x.length = 1 ∨ y.length = 1) ∧
      ((x.headD []).length = (y.headD []).length ∨
        (x.headD []).length = 1 ∨ (y.headD []).length = 1) then
    .ok ((List.range (max x.length y.length)).map fun i =>
      (List.range (max (x.headD []).length (y.headD []).length)).map fun j =>
        f ((x.getD (bIdx x.length i) []).getD (bIdx (x.headD []).length j) 0)
          ((y.getD (bIdx y.length i) []).getD (bIdx (y.headD []).length j) 0))
  else .error .broadcastError

/-- Addition on the uint16 arrays of the demosaic step wraps modulo
2^16. -/
def addU16 (a b : Nat) : Nat := (a + b) % 65536

/-- Map over every entry of a 2-D array. -/
def map2d (f : Nat → Nat) (m : List (List Nat)) : List (List Nat) :=
  m.map fun row => row.map f

/-- Python str.startswith: the first argument read as the leading
characters of the second. -/
def leadsWith : List Char → List Char → Bool
  | [], _ => true
  | _ :: _, [] => false
  | a :: as, b :: bs => a == b && leadsWith as bs

/-- bayer_pattern.startswith(p) of process_raw_data lines 179-196. -/
def startsW (p s : String) : Bool := leadsWith p.data s.data

/-- Result of process_raw_data: a three-plane color image from the
demosaic branch, or the single-channel pass-through of the NoIR branch. -/
inductive RawOut where
  | rgb (r g b : List (List Nat))
  | noir (grid : List (List Nat))
deriving DecidableEq

/-- The four-way Bayer dispatch of process_raw_data lines 179-204, with
the assignments of each branch in source order. The output array
rgb_image is allocated with the requested (height, width) dimensions at
lines 180, 186, 191 and 197, so every channel-plane assignment is a
broadcast of the half-resolution subgrid into a full (height, width)
plane. Green is the elementwise uint16 sum of the two green subgrids
followed by floor division by 2; in the GRBG and GBRG branches the first
green subgrid is assigned to the plane first and the average is formed
from the plane afterwards, as at lines 192-195 and 198-201. -/
def demosaic (bayer : String) (height width : Nat) (raw : List (List Nat)) :
    Except PErr RawOut :=
  if startsW "RGGB" bayer then do
    let r ← assignPlane height width (subGrid raw 0 0)
    let gsum ← broadcastWith addU16 (subGrid raw 0 1) (subGrid raw 1 0)
    let g ← assignPlane height width (map2d (· / 2) gsum)
    let b ← assignPlane height width (subGrid raw 1 1)
    .ok (.rgb r g b)
  else if startsW "BGGR" bayer then do
    let b ← assignPlane height width (subGrid raw 0 0)
    let gsum ← broadcastWith addU16 (subGrid raw 0 1) (subGrid raw 1 0)
    let g ← assignPlane height width (map2d (· / 2) gsum)
    let r ← assignPlane height width (subGrid raw 1 1)
    .ok (.rgb r g b)
  else if startsW "GRBG" bayer then do
    let g1 ← assignPlane height width (subGrid raw 0 0)
    let r ← assignPlane height width (subGrid raw 0 1)
    let b ← assignPlane height width (subGrid raw 1 0)
    let gsum ← broadcastWith addU16 g1 (subGrid raw 1 1)
    let g ← assignPlane height width (map2d (· / 2) gsum)
    .ok (.rgb r g b)
  else if startsW "GBRG" bayer then do
    let g1 ← assignPlane height width (subGrid raw 0 0)
    let b ← assignPlane height width (subGrid raw 0 1)
    let r ← assignPlane height width (subGrid raw 1 0)
    let gsum ← broadcastWith addU16 g1 (subGrid raw 1 1)
    let g ← assignPlane height width (map2d (· / 2) gsum)
    .ok (.rgb r g b)
  else .error .unsupportedPattern

/-- process_raw_data of src/testing/get_images-fast.py lines 140-213 in
stage order: the explicit size check against expected_size (lines
156-158), the reshape into 5-byte groups (line 161, an error when the
length is not a multiple of 5 exactly fitting the group count), the
10-bit unpack (lines 164-168), the reshape to camera dimensions and the
top-left crop (lines 171-174), then the Bayer demosaic for node_1 or the
NoIR pass-through for every other node (lines 177-213). -/
def process_raw_data (data : List Nat) (width height cameraWidth cameraHeight : Nat)
    (bayer node_id : String) : Except PErr RawOut :=
  if data.length ≠ expectedSize cameraWidth cameraHeight then .error .sizeMismatch
  else if data.length ≠ cameraHeight * cameraWidth / 4 * 5 then .error .reshapeError
  else if node_id = "node_1" then
    demosaic bayer height width
      (cropTL (reshape2d (unpackData data) cameraHeight cameraWidth) height width)
  else .ok (.noir (cropTL (reshape2d (unpackData data) cameraHeight cameraWidth) height width))

/-- Decidable equality for pipeline results, used to evaluate the
pipeline at concrete inputs. -/
instance {ε α : Type} [DecidableEq ε] [DecidableEq α] : DecidableEq (Except ε α) := fun a b =>
  match a, b with
  | .error x, .error y =>
    if h : x = y then .isTrue (congrArg Except.error h)
    else .isFalse fun he => h (Except.error.inj he)
  | .ok x, .ok y =>
    if h : x = y then .isTrue (congrArg Except.ok h)
    else .isFalse fun he => h (Except.ok.inj he)
  | .error _, .ok _ => .isFalse fun he => Except.noConfusion he
  | .ok _, .error _ => .isFalse fun he => Except.noConfusion he

/-- SUPPORTED_FORMATS of src/camera_node.py line 56. -/
def SUPPORTED_FORMATS : List String := ["jpg", "dng"]

/-- DEFAULT_FORMAT of src/camera_node.py line 57. -/
def DEFAULT_FORMAT : String := "jpg"

/-- SUPPORTED_RESOLUTIONS of src/camera_node.py line 55. -/
def SUPPORTED_RESOLUTIONS : List String := ["2304x1296", "1536x864", "1152x648"]

/-- DEFAULT_RESOLUTION of src/camera_node.py line 52. -/
def DEFAULT_RESOLUTION : String := "2304x1296"

/-- Resolution validation of handle_capture (src/camera_node.py lines
376-380): an unsupported resolution is logged and replaced by the
default, never rejected. -/
def validateResolution (requested : String) : String :=
  if requested ∈ SUPPORTED_RESOLUTIONS then requested else DEFAULT_RESOLUTION

/-- ASCII lowering of one character, the effect of Python str.lower on
the format tags in play. -/
def lowerChar (c : Char) : Char :=
  if 65 ≤ c.toNat ∧ c.toNat ≤ 90 then Char.ofNat (c.toNat + 32) else c

/-- Python str.lower applied to a format tag. -/
def pyLower (s : String) : String := ⟨s.data.map lowerChar⟩

/-- Format validation of handle_capture (src/camera_node.py lines
370 and 383-387): the request is lowercased and an unsupported format is
logged and replaced by the default, never rejected. -/
def validateFormat (requested : String) : String :=
  if pyLower requested ∈ SUPPORTED_FORMATS then pyLower requested else DEFAULT_FORMAT

/-- The parameter validation of handle_capture (src/camera_node.py lines
365-394): the handler always proceeds to capture_image with the
validated pair; no validation branch emits capture_error. -/
def handle_capture (resolution format : String) : String × String :=
  (validateResolution resolution, validateFormat format)

/-- C9 counterexample: a capture request with the unrecognized format
tag png is not failed: handle_capture falls back to the default format
jpg and the capture proceeds, producing an image. -/
theorem handle_capture_unknown_format_falls_back :
    handle_capture "2304x1296" "png" = ("2304x1296", "jpg") := by
  decide

/-- C4: on a 4 x 4 unpacked grid (camera 4 x 4, requested 4 x 4, 20
packed bytes) the RGGB demosaic branch fails with a broadcast error
instead of producing a 2 x 2 x 3 image: rgb_image is allocated at the
full requested (height, width) and the first half-resolution 2 x 2
channel plane cannot be assigned into the 4 x 4 plane. -/
theorem process_raw_data_demosaic_broadcast_failure :
    process_raw_data (List.replicate 20 0) 4 4 4 4 "RGGB" "node_1"
      = .error .broadcastError := by
  decide

/-- C3 counterexample: with a 1 x 1 sensor the expected packed size of
the code is (1 * 1 * 5) // 4 = 1 byte, while ceil(1 * 1 * 10 / 8) = 2
bytes; a 2-byte input, whose length equals the ceiling, is rejected with
the size-mismatch error, so the raise condition is not length differing
from the ceiling. -/
theorem process_raw_data_sizeMismatch_at_ceiling_length :
    process_raw_data [0, 0] 1 1 1 1 "RGGB" "node_2" = .error .sizeMismatch ∧
      List.length [0, 0] = (1 * 1 * 10 + 7) / 8 := by
  decide

/-- C8 counterexample: with a 2 x 2 sensor (5 packed bytes) and a
requested 4 x 4 region, the crop raw_image[:4, :4] clamps to the sensor
bounds and the pipeline returns a 2 x 2 grid: the output is not
zero-padded to the requested 4 x 4 shape. -/
theorem process_raw_data_no_zero_padding :
    process_raw_data [0, 0, 0, 0, 0] 4 4 2 2 "RGGB" "node_2"
        = .ok (.noir [[0, 0], [0, 0]]) ∧
      List.length [[0, 0], [0, 0]] ≠ 4 := by
  decide

/-- Reading a mapped range at an index: the mapped value inside the
range, the default outside. -/
theorem getD_map_range {α : Type} (f : Nat → α) (n i : Nat) (d : α) :
    ((List.range n).map f).getD i d = if i < n then f i else d := by
  rw [List.getD_eq_getElem?_getD, List.getElem?_map]
  by_cases h : i < n
  · rw [List.getElem?_range h]
    simp [h]
  · rw [List.getElem?_eq_none (by simpa using Nat.le_of_not_lt h)]
    simp [h]

/-- A bind on Except cannot produce an error that neither side can
produce. -/
theorem bindNeError {α β : Type} {e : Except PErr α} {f : α → Except PErr β} {err : PErr}
    (he : e ≠ .error err) (hf : ∀ a, f a ≠ .error err) : e >>= f ≠ .error err := by
  cases e with
  | error x =>
    show (Except.error x : Except PErr β) ≠ Except.error err
    intro hcontra
    exact he (congrArg Except.error (Except.error.inj hcontra))
  | ok a =>
    show f a ≠ Except.error err
    exact hf a

/-- A channel-plane assignment only ever fails with the broadcast
error. -/
theorem assignPlane_ne_sizeMismatch (h w : Nat) (src : List (List Nat)) :
    assignPlane h w src ≠ .error .sizeMismatch := by
  unfold assignPlane
  split
  · exact fun hc => Except.noConfusion hc
  · exact fun hc => PErr.noConfusion (Except.error.inj hc)

/-- A broadcast elementwise operation only ever fails with the
broadcast error. -/
theorem broadcastWith_ne_sizeMismatch (f : Nat → Nat → Nat) (x y : List (List Nat)) :
    broadcastWith f x y ≠ .error .sizeMismatch := by
  unfold broadcastWith
  split
  · exact fun hc => Except.noConfusion hc
  · exact fun hc => PErr.noConfusion (Except.error.inj hc)

/-- The demosaic step never raises the size-mismatch error: its failures
are the broadcast error and the unsupported-pattern error. -/
theorem demosaic_ne_sizeMismatch (bayer : String) (h w : Nat) (raw : List (List Nat)) :
    demosaic bayer h w raw ≠ .error .sizeMismatch := by
  unfold demosaic
  split
  · refine bindNeError (assignPlane_ne_sizeMismatch _ _ _) fun r => ?_
    refine bindNeError (broadcastWith_ne_sizeMismatch _ _ _) fun gsum => ?_
    refine bindNeError (assignPlane_ne_sizeMismatch _ _ _) fun g => ?_
    refine bindNeError (assignPlane_ne_sizeMismatch _ _ _) fun b => ?_
    exact fun hc => Except.noConfusion hc
  split
  · refine bindNeError (assignPlane_ne_sizeMismatch _ _ _) fun b => ?_
    refine bindNeError (broadcastWith_ne_sizeMismatch _ _ _) fun gsum => ?_
    refine bindNeError (assignPlane_ne_sizeMismatch _ _ _) fun g => ?_
    refine bindNeError (assignPlane_ne_sizeMismatch _ _ _) fun r => ?_
    exact fun hc => Except.noConfusion hc
  split
  · refine bindNeError (assignPlane_ne_sizeMismatch _ _ _) fun g1 => ?_
    refine bindNeError (assignPlane_ne_sizeMismatch _ _ _) fun r => ?_
    refine bindNeError (assignPlane_ne_sizeMismatch _ _ _) fun b => ?_
    refine bindNeError (broadcastWith_ne_sizeMismatch _ _ _) fun gsum => ?_
    refine bindNeError (assignPlane_ne_sizeMismatch _ _ _) fun g => ?_
    exact fun hc => Except.noConfusion hc
  split
  · refine bindNeError (assignPlane_ne_sizeMismatch _ _ _) fun g1 => ?_
    refine bindNeError (assignPlane_ne_sizeMismatch _ _ _) fun b => ?_
    refine bindNeError (assignPlane_ne_sizeMismatch _ _ _) fun r => ?_
    refine bindNeError (broadcastWith_ne_sizeMismatch _ _ _) fun gsum => ?_
    refine bindNeError (assignPlane_ne_sizeMismatch _ _ _) fun g => ?_
    exact fun hc => Except.noConfusion hc
  · exact fun hc => PErr.noConfusion (Except.error.inj hc)

/-- C3 amended: process_raw_data raises the size-mismatch error exactly
when the input length differs from (camera_width * camera_height * 5)
divided by 4 with floor division; that threshold agrees with
ceil(w * h * 10 / 8) exactly when the pixel count is a multiple of 4.
The check is the first stage of the pipeline, before any reshape. -/
theorem process_raw_data_sizeMismatch_iff (data : List Nat)
    (width height cameraWidth cameraHeight : Nat) (bayer node_id : String) :
    (process_raw_data data width height cameraWidth cameraHeight bayer node_id
        = .error .sizeMismatch ↔ data.length ≠ expectedSize cameraWidth cameraHeight)
    ∧ (4 ∣ cameraWidth * cameraHeight →
        expectedSize cameraWidth cameraHeight = (cameraWidth * cameraHeight * 10 + 7) / 8) := by
  constructor
  · unfold process_raw_data
    split
    · next hlen => exact ⟨fun _ => hlen, fun _ => rfl⟩
    · next hlen =>
      constructor
      · intro hres
        exfalso
        revert hres
        split
        · exact fun hc => PErr.noConfusion (Except.error.inj hc)
        · split
          · exact fun hc => demosaic_ne_sizeMismatch _ _ _ _ hc
          · exact fun hc => Except.noConfusion hc
      · intro hcon
        exact absurd hcon hlen
  · intro hdvd
    obtain ⟨k, hk⟩ := hdvd
    unfold expectedSize
    rw [hk]
    omega

/-- C3 witness: at a 2 x 2 sensor the expected size is 5 bytes; a
4-byte input (one short) and a 6-byte input (one over) raise the
size-mismatch error, a 5-byte input does not, and the threshold equals
the ceiling formula since 4 divides the pixel count. -/
theorem process_raw_data_sizeMismatch_iff_witness :
    (process_raw_data [0, 0, 0, 0] 2 2 2 2 "RGGB" "node_2"
        = .error .sizeMismatch ↔ List.length [0, 0, 0, 0] ≠ expectedSize 2 2) ∧
      expectedSize 2 2 = (2 * 2 * 10 + 7) / 8 :=
  ⟨(process_raw_data_sizeMismatch_iff [0, 0, 0, 0] 2 2 2 2 "RGGB" "node_2").1,
   (process_raw_data_sizeMismatch_iff [0, 0, 0, 0] 2 2 2 2 "RGGB" "node_2").2 (by decide)⟩

/-- C9 amended: for the RGB node, once the size check and the group
reshape pass, a declared tiling matching none of the four recognized
forms makes the pipeline fail with the unsupported-pattern error and no
image is produced; an unrecognized format tag in a capture request, by
contrast, is not failed: handle_capture replaces it with the default
format and proceeds. -/
theorem process_raw_data_unsupportedPattern (data : List Nat)
    (width height cameraWidth cameraHeight : Nat) (bayer fmt : String)
    (hsize : data.length = expectedSize cameraWidth cameraHeight)
    (hgroups : data.length = cameraHeight * cameraWidth / 4 * 5)
    (h1 : startsW "RGGB" bayer = false) (h2 : startsW "BGGR" bayer = false)
    (h3 : startsW "GRBG" bayer = false) (h4 : startsW "GBRG" bayer = false)
    (hfmt : pyLower fmt ∉ SUPPORTED_FORMATS) :
    process_raw_data data width height cameraWidth cameraHeight bayer "node_1"
        = .error .unsupportedPattern
      ∧ validateFormat fmt = DEFAULT_FORMAT := by
  have e1 : ¬(data.length ≠ expectedSize cameraWidth cameraHeight) := fun hc => hc hsize
  have e2 : ¬(data.length ≠ cameraHeight * cameraWidth / 4 * 5) := fun hc => hc hgroups
  constructor
  · unfold process_raw_data
    rw [if_neg e1, if_neg e2, if_pos rfl]
    unfold demosaic
    simp [h1, h2, h3, h4]
  · unfold validateFormat
    rw [if_neg hfmt]

/-- C9 witness: a well-sized 2 x 2 transfer declaring the tiling XTRANS
is rejected with the unsupported-pattern error, while the format tag png
falls back to the default jpg. -/
theorem process_raw_data_unsupportedPattern_witness :
    process_raw_data [0, 0, 0, 0, 0] 2 2 2 2 "XTRANS" "node_1"
        = .error .unsupportedPattern
      ∧ validateFormat "png" = DEFAULT_FORMAT :=
  process_raw_data_unsupportedPattern [0, 0, 0, 0, 0] 2 2 2 2 "XTRANS" "png"
    (by decide) (by decide) (by decide) (by decide) (by decide) (by decide) (by decide)

/-- C8 amended: after unpacking, the samples are reshaped into a
sensor_height x sensor_width grid and the requested height x width
region is taken from the top-left corner; each axis is clamped at the
sensor bound, so when the request exceeds the sensor dimensions the
output is the whole sensor axis, never zero-padded: the result has
exactly min height sensor_height rows and min width sensor_width
columns, its in-range entries are the corresponding grid samples, and
reads outside it give the default only because nothing is there. -/
theorem crop_after_reshape_clamps (v : List Nat) (cameraHeight cameraWidth height width : Nat) :
    (cropTL (reshape2d v cameraHeight cameraWidth) height width).length
        = min height cameraHeight
    ∧ (∀ row ∈ cropTL (reshape2d v cameraHeight cameraWidth) height width,
        row.length = min width cameraWidth)
    ∧ ∀ i j : Nat,
        ((cropTL (reshape2d v cameraHeight cameraWidth) height width).getD i []).getD j 0
          = if i < min height cameraHeight ∧ j < min width cameraWidth
            then v.getD (i * cameraWidth + j) 0 else 0 := by
  have key : cropTL (reshape2d v cameraHeight cameraWidth) height width
      = (List.range (min height cameraHeight)).map
          (fun i => (List.range (min width cameraWidth)).map
            (fun j => v.getD (i * cameraWidth + j) 0)) := by
    unfold cropTL reshape2d
    rw [← List.map_take, List.take_range, List.map_map]
    congr 1
    funext i
    show ((List.range cameraWidth).map fun j => v.getD (i * cameraWidth + j) 0).take width = _
    rw [← List.map_take, List.take_range]
  refine ⟨?_, ?_, ?_⟩
  · rw [key]
    simp
  · rw [key]
    intro row hrow
    obtain ⟨i, _, rfl⟩ := List.mem_map.mp hrow
    simp
  · intro i j
    rw [key, getD_map_range]
    by_cases hi : i < min height cameraHeight
    · rw [if_pos hi, getD_map_range]
      by_cases hj : j < min width cameraWidth
      · rw [if_pos hj, if_pos ⟨hi, hj⟩]
      · rw [if_neg hj, if_neg fun hc => hj hc.2]
    · rw [if_neg hi, if_neg fun hc => hi hc.1]
      rfl

/-- on_image_chunk of src/client/get_images-fast.py lines 101-107: a
chunk is processed only when metadata is held (metadata is None before
the metadata event of the current transfer and is reset to None at
completion); remaining = size - len(received_data) is a Python int, and
only when it is positive are the first remaining bytes of the chunk
appended. The metadata dict is abstracted to its size field, the only
field the handler reads. -/
def on_image_chunk (metadata : Option Nat) (received_data chunk : List Nat) : List Nat :=
  match metadata with
  | none => received_data
  | some size =>
    if (size : Int) - received_data.length > 0 then
      received_data ++ chunk.take ((size : Int) - received_data.length).toNat
    else received_data

/-- The chunk receive loop of capture_from_node
(src/backend/camera_client.py lines 95-101): while the accumulated
length is below the declared size, the next chunk from the queue is
appended whole; the loop exits as soon as the length reaches the size,
leaving later chunks unconsumed. The chunk queue is modelled as the list
of chunks the endpoint sends; an exhausted queue (the timeout path)
returns the buffer accumulated so far. -/
def receiveLoop (size : Nat) : List Nat → List (List Nat) → List Nat
  | acc, [] => acc
  | acc, c :: cs => if acc.length < size then receiveLoop size (acc ++ c) cs else acc

/-- C10: a chunk event received while no metadata is held is discarded
entirely; the assembled buffer is unchanged. -/
theorem on_image_chunk_before_metadata_discards (received_data chunk : List Nat) :
    on_image_chunk none received_data chunk = received_data := rfl

/-- C5 counterexample: in the backend receive loop a transfer of
declared size 2 delivered as one 3-byte chunk leaves an assembled buffer
of 3 bytes: the excess byte of the final chunk is appended, not
truncated, and the buffer length exceeds the declared size. -/
theorem receiveLoop_exceeds_declared_size :
    receiveLoop 2 [] [[0, 0, 0]] = [0, 0, 0] ∧
      ¬(receiveLoop 2 [] [[0, 0, 0]]).length ≤ 2 := by
  decide

/-- Appending one extra chunk to a queue that already filled the buffer
does not change the receive loop result: the loop exits before reading
it. -/
theorem receiveLoop_extra_chunk (size : Nat) (acc : List Nat) (cs : List (List Nat))
    (c : List Nat) (h : size ≤ (receiveLoop size acc cs).length) :
    receiveLoop size acc (cs ++ [c]) = receiveLoop size acc cs := by
  induction cs generalizing acc with
  | nil =>
    simp only [receiveLoop, List.nil_append] at h ⊢
    rw [if_neg (by omega)]
  | cons c0 cs ih =>
    simp only [List.cons_append, receiveLoop] at h ⊢
    by_cases hlt : acc.length < size
    · simp only [if_pos hlt] at h ⊢
      exact ih _ h
    · simp only [if_neg hlt] at h ⊢

/-- C5 amended: in the event-handler client the invariant holds: a chunk
arriving with the buffer already below the declared size is truncated to
the remaining room, so the length never exceeds the size, and a chunk
arriving once size bytes are present leaves the buffer unchanged. In the
backend receive loop only the second half survives: an extra chunk
delivered after size bytes have arrived leaves the buffer unchanged, but
excess bytes inside the final chunk are appended, so the assembled
length can exceed the declared size there. -/
theorem assembled_buffer_bounds :
    (∀ (size : Nat) (received_data chunk : List Nat), received_data.length ≤ size →
      (on_image_chunk (some size) received_data chunk).length ≤ size)
    ∧ (∀ (size : Nat) (received_data chunk : List Nat), received_data.length = size →
        on_image_chunk (some size) received_data chunk = received_data)
    ∧ ∀ (size : Nat) (cs : List (List Nat)) (c : List Nat),
        size ≤ (receiveLoop size [] cs).length →
        receiveLoop size [] (cs ++ [c]) = receiveLoop size [] cs := by
  refine ⟨?_, ?_, ?_⟩
  · intro size received_data chunk h
    simp only [on_image_chunk]
    split
    · simp only [List.length_append, List.length_take]
      omega
    · exact h
  · intro size received_data chunk h
    simp only [on_image_chunk]
    rw [if_neg (by omega)]
  · intro size cs c h
    exact receiveLoop_extra_chunk size [] cs c h

/-- C5 amended witness: declared size 2; the client handler truncates a
3-byte chunk arriving on a 1-byte buffer to one byte and ignores a chunk
arriving on a full buffer; the backend loop ignores a whole extra
trailing chunk once 2 bytes have arrived. -/
theorem assembled_buffer_bounds_witness :
    (on_image_chunk (some 2) [5] [7, 8, 9]).length ≤ 2
    ∧ on_image_chunk (some 2) [5, 6] [7] = [5, 6]
    ∧ receiveLoop 2 [] [[1, 2], [3]] = receiveLoop 2 [] [[1, 2]] :=
  ⟨assembled_buffer_bounds.1 2 [5] [7, 8, 9] (by decide),
   assembled_buffer_bounds.2.1 2 [5, 6] [7] (by decide),
   assembled_buffer_bounds.2.2 2 [[1, 2]] [3] (by decide)⟩

/-- Per-endpoint capture result of src/backend/models.py lines 4-7. -/
structure ImageInfo where
  node_id : String
  filename : String
  filepath : String
deriving DecidableEq

/-- The aggregate capture set of src/backend/models.py lines 9-11: one
shared timestamp and the list of per-endpoint results. -/
structure ImageSet where
  timestamp : String
  images : List ImageInfo
deriving DecidableEq

/-- The filename built at src/backend/camera_client.py line 110. -/
def mkFilename (timestamp node_id : String) : String :=
  "image_" ++ timestamp ++ "_" ++ node_id ++ ".jpg"

/-- The ImageInfo built at src/backend/camera_client.py lines 124-128,
with image_dir fixed to received_images at line 14. -/
def mkImageInfo (timestamp : String) (node_id : String) : ImageInfo :=
  ⟨node_id, mkFilename timestamp node_id,
    "received_images/" ++ mkFilename timestamp node_id⟩

/-- capture_from_node of src/backend/camera_client.py lines 74-132: on
success it returns the ImageInfo for its node and the shared timestamp;
the enclosing try/except catches every failure of the session (queue
clearing, emit, the three phase waits with their timeouts, processing
and saving) and returns None (lines 130-132). The nondeterministic fate
of one session is abstracted by the outcome predicate; nothing else
about the other sessions enters. -/
def capture_from_node (timestamp : String) (outcome : String → Bool) (node_id : String) :
    Option ImageInfo :=
  if outcome node_id then some (mkImageInfo timestamp node_id) else none

/-- One execution of the event loop over the gathered session tasks:
completions happen in schedule order, and a completed task stores its
pure result in the slot of its own task index. Modelled from the
semantics of asyncio.gather used at src/backend/camera_client.py line
67. -/
def runTasks (tasks : List (Option ImageInfo)) : List Nat → Nat → Option (Option ImageInfo)
  | [], _ => none
  | j :: rest, i => if i = j then some (tasks.getD j none) else runTasks tasks rest i

/-- The value asyncio.gather returns once the schedule has run: the
slots read back in task order, regardless of the completion order the
schedule imposed. -/
def gatherSched (tasks : List (Option ImageInfo)) (sched : List Nat) : List (Option ImageInfo) :=
  (List.range tasks.length).map fun i => (runTasks tasks sched i).getD none

/-- capture_all of src/backend/camera_client.py lines 53-72: one
timestamp is generated at the start of the cycle; the task list is built
by iterating the client dictionary, whose insertion order is the static
node configuration order (connect_to_node registers every configured
node, connected or not, at line 23 while iterating self.nodes at lines
58-60); asyncio.gather runs the per-node sessions concurrently under a
completion schedule and returns their results in task order; the
comprehension at line 71 keeps the non-None results in that order. -/
def capture_all (nodes : List String) (outcome : String → Bool) (timestamp : String)
    (sched : List Nat) : ImageSet :=
  ⟨timestamp,
    (gatherSched (nodes.map (capture_from_node timestamp outcome)) sched).filterMap id⟩

/-- A slot of a completed task holds that task's own result. -/
theorem runTasks_mem (tasks : List (Option ImageInfo)) (sched : List Nat) (i : Nat)
    (h : i ∈ sched) : runTasks tasks sched i = some (tasks.getD i none) := by
  induction sched with
  | nil => cases h
  | cons j rest ih =>
    simp only [runTasks]
    by_cases hij : i = j
    · rw [if_pos hij, hij]
    · rw [if_neg hij]
      exact ih (by rcases List.mem_cons.mp h with h1 | h2; exact absurd h1 hij; exact h2)

/-- Reading every index of a list back in order reproduces the list. -/
theorem map_getD_range {α : Type} (l : List α) (d : α) :
    (List.range l.length).map (fun i => l.getD i d) = l := by
  induction l with
  | nil => rfl
  | cons a t ih =>
    rw [show (a :: t).length = t.length + 1 from rfl, List.range_succ_eq_map,
      List.map_cons, List.map_map]
    congr 1

/-- When the schedule completes every task, gather returns exactly the
task results in task order: the completion order does not appear in the
result. -/
theorem gatherSched_complete (tasks : List (Option ImageInfo)) (sched : List Nat)
    (h : ∀ i < tasks.length, i ∈ sched) : gatherSched tasks sched = tasks := by
  unfold gatherSched
  rw [List.map_congr_left fun i hi => by
    rw [runTasks_mem tasks sched i (h i (List.mem_range.mp hi))]]
  exact map_getD_range tasks none

/-- Keeping the non-None per-node results is filtering the nodes by
their outcome and building each successful ImageInfo pointwise. -/
theorem filterMap_capture (timestamp : String) (outcome : String → Bool) (nodes : List String) :
    (nodes.map (capture_from_node timestamp outcome)).filterMap id
      = (nodes.filter fun n => outcome n).map (mkImageInfo timestamp) := by
  induction nodes with
  | nil => rfl
  | cons n t ih =>
    cases hn : outcome n <;>
      simp [capture_from_node, List.filter_cons, hn, ih]

/-- Normal form of a completed capture cycle: the shared timestamp and
the per-node results of the successful nodes, in configuration order. -/
theorem capture_all_complete (nodes : List String) (outcome : String → Bool)
    (timestamp : String) (sched : List Nat) (h : ∀ i < nodes.length, i ∈ sched) :
    capture_all nodes outcome timestamp sched
      = ⟨timestamp, (nodes.filter fun n => outcome n).map (mkImageInfo timestamp)⟩ := by
  unfold capture_all
  rw [gatherSched_complete _ _ (by simpa using h), filterMap_capture]

/-- C6: under any assignment of per-endpoint outcomes, a completed
capture cycle returns an ImageSet whose image list is the pointwise
per-node result of the successful nodes only: it has at most one entry
per configured node, every successful node contributes its own image
regardless of the other outcomes (no abort, no retry, each node entered
once), and a failed node is excluded from the set. -/
theorem capture_all_failure_isolation (nodes : List String) (outcome : String → Bool)
    (timestamp : String) (sched : List Nat) (h : ∀ i < nodes.length, i ∈ sched) :
    (capture_all nodes outcome timestamp sched).images
        = (nodes.filter fun n => outcome n).map (mkImageInfo timestamp)
    ∧ (capture_all nodes outcome timestamp sched).images.length ≤ nodes.length
    ∧ (∀ n ∈ nodes, outcome n = true →
        mkImageInfo timestamp n ∈ (capture_all nodes outcome timestamp sched).images)
    ∧ ∀ n : String, outcome n = false →
        mkImageInfo timestamp n ∉ (capture_all nodes outcome timestamp sched).images := by
  rw [capture_all_complete nodes outcome timestamp sched h]
  refine ⟨rfl, ?_, ?_, ?_⟩
  · rw [List.length_map]
    exact List.length_filter_le _ _
  · intro n hn hout
    exact List.mem_map_of_mem _ (List.mem_filter.mpr ⟨hn, hout⟩)
  · intro n hout hmem
    obtain ⟨m, hmfil, heq⟩ := List.mem_map.mp hmem
    have hmn : m = n := congrArg ImageInfo.node_id heq
    rw [hmn] at hmfil
    rw [(List.mem_filter.mp hmfil).2] at hout
    exact Bool.noConfusion hout

/-- C6 witness: two configured nodes with node_2 failing and a schedule
completing node_2 first still yield the singleton set for node_1, with
node_2 excluded. -/
theorem capture_all_failure_isolation_witness :
    (capture_all ["node_1", "node_2"] (fun n => n == "node_1") "t0" [1, 0]).images
        = (["node_1", "node_2"].filter fun n => n == "node_1").map (mkImageInfo "t0")
    ∧ (capture_all ["node_1", "node_2"] (fun n => n == "node_1") "t0" [1, 0]).images.length
        ≤ (["node_1", "node_2"] : List String).length
    ∧ (∀ n ∈ (["node_1", "node_2"] : List String), (n == "node_1") = true →
        mkImageInfo "t0" n
          ∈ (capture_all ["node_1", "node_2"] (fun n => n == "node_1") "t0" [1, 0]).images)
    ∧ ∀ n : String, (n == "node_1") = false →
        mkImageInfo "t0" n
          ∉ (capture_all ["node_1", "node_2"] (fun n => n == "node_1") "t0" [1, 0]).images :=
  capture_all_failure_isolation ["node_1", "node_2"] (fun n => n == "node_1") "t0" [1, 0]
    (by decide)

/-- C7: a completed capture cycle is keyed by the one timestamp
generated at the start of the cycle, its result is the same under any
two completing schedules (the completion order never changes the
output), and the node identifiers of the returned images are exactly the
successful nodes in static configuration order. -/
theorem capture_all_config_order (nodes : List String) (outcome : String → Bool)
    (timestamp : String) (sched1 sched2 : List Nat)
    (h1 : ∀ i < nodes.length, i ∈ sched1) (h2 : ∀ i < nodes.length, i ∈ sched2) :
    capture_all nodes outcome timestamp sched1 = capture_all nodes outcome timestamp sched2
    ∧ (capture_all nodes outcome timestamp sched1).timestamp = timestamp
    ∧ (capture_all nodes outcome timestamp sched1).images.map ImageInfo.node_id
        = nodes.filter fun n => outcome n := by
  rw [capture_all_complete nodes outcome timestamp sched1 h1,
    capture_all_complete nodes outcome timestamp sched2 h2]
  refine ⟨rfl, rfl, ?_⟩
  rw [List.map_map]
  exact List.map_id _

/-- C7 witness: with node_2 completing before node_1 in one schedule and
after it in the other, the returned sets coincide, carry the shared
timestamp, and list node_1 then node_2 in configuration order. -/
theorem capture_all_config_order_witness :
    capture_all ["node_1", "node_2"] (fun _ => true) "t1" [1, 0]
        = capture_all ["node_1", "node_2"] (fun _ => true) "t1" [0, 1]
    ∧ (capture_all ["node_1", "node_2"] (fun _ => true) "t1" [1, 0]).timestamp = "t1"
    ∧ (capture_all ["node_1", "node_2"] (fun _ => true) "t1" [1, 0]).images.map
          ImageInfo.node_id
        = ["node_1", "node_2"].filter fun _ => true :=
  capture_all_config_order ["node_1", "node_2"] (fun _ => true) "t1" [1, 0] [0, 1]
    (by decide) (by decide)
